import Mathlib

/-!
# Verification of the quick-commerce operational risk scoring engine

Shallow embedding of `src/risk_engine.py` and `src/config.py`.
Python floats are modelled as exact rationals (`ℚ`): all risk arithmetic is
piecewise-linear with small decimal constants. Pandas dataframes are modelled
as lists of records; a possibly-missing column is an `Option` field; a
computation that can raise (`KeyError` on a missing required column) returns
`Except String`.
-/

/-! ## Configuration (`config.py`) -/

def RISK_WEIGHTS_traffic : ℚ := 40/100
def RISK_WEIGHTS_weather : ℚ := 35/100
def RISK_WEIGHTS_demand : ℚ := 25/100

def TRAFFIC_THRESHOLDS_low : ℚ := 3/10
def TRAFFIC_THRESHOLDS_medium : ℚ := 3/5
def TRAFFIC_THRESHOLDS_high : ℚ := 4/5

def WEATHER_THRESHOLDS_low : ℚ := 5
def WEATHER_THRESHOLDS_medium : ℚ := 15
def WEATHER_THRESHOLDS_high : ℚ := 30

def DEMAND_THRESHOLDS_low : ℚ := 1/2
def DEMAND_THRESHOLDS_medium : ℚ := 7/10
def DEMAND_THRESHOLDS_high : ℚ := 17/20

def TEMPERATURE_THRESHOLDS_cold_risk : ℚ := 10
def TEMPERATURE_THRESHOLDS_hot_risk : ℚ := 40

def RISK_SCORE_THRESHOLDS_low : ℚ := 30
def RISK_SCORE_THRESHOLDS_medium : ℚ := 60

/-! ## Component scorers (`risk_engine.py`) -/

/-- `compute_traffic_risk_score` from `risk_engine.py`: effective signal is
`max(congestion_level, congestion_7d_avg)`, then a 4-band piecewise-linear
map with breakpoints 0.3 / 0.6 / 0.8, top band clamped at 100. -/
def compute_traffic_risk_score (congestion_level congestion_7d_avg : ℚ) : ℚ :=
  let effective_congestion := max congestion_level congestion_7d_avg
  if effective_congestion ≥ TRAFFIC_THRESHOLDS_high then
    let excess := (effective_congestion - TRAFFIC_THRESHOLDS_high) /
      (1 - TRAFFIC_THRESHOLDS_high)
    min 100 (80 + excess * 20)
  else if effective_congestion ≥ TRAFFIC_THRESHOLDS_medium then
    let excess := (effective_congestion - TRAFFIC_THRESHOLDS_medium) /
      (TRAFFIC_THRESHOLDS_high - TRAFFIC_THRESHOLDS_medium)
    50 + excess * 30
  else if effective_congestion ≥ TRAFFIC_THRESHOLDS_low then
    let excess := (effective_congestion - TRAFFIC_THRESHOLDS_low) /
      (TRAFFIC_THRESHOLDS_medium - TRAFFIC_THRESHOLDS_low)
    20 + excess * 30
  else
    let excess := effective_congestion / TRAFFIC_THRESHOLDS_low
    excess * 20

/-- `compute_weather_risk_score` from `risk_engine.py`: rainfall map with
breakpoints 5 / 15 / 30 (top-band excess divided by 50 and clamped to 1),
plus an additive temperature penalty, total clamped at 100. -/
def compute_weather_risk_score (rainfall_mm rainfall_7d_avg temperature : ℚ) : ℚ :=
  let effective_rainfall := max rainfall_mm rainfall_7d_avg
  let score :=
    if effective_rainfall ≥ WEATHER_THRESHOLDS_high then
      let excess := (effective_rainfall - WEATHER_THRESHOLDS_high) / 50
      70 + min excess 1 * 30
    else if effective_rainfall ≥ WEATHER_THRESHOLDS_medium then
      let excess := (effective_rainfall - WEATHER_THRESHOLDS_medium) /
        (WEATHER_THRESHOLDS_high - WEATHER_THRESHOLDS_medium)
      40 + excess * 30
    else if effective_rainfall ≥ WEATHER_THRESHOLDS_low then
      let excess := (effective_rainfall - WEATHER_THRESHOLDS_low) /
        (WEATHER_THRESHOLDS_medium - WEATHER_THRESHOLDS_low)
      15 + excess * 25
    else
      let excess := effective_rainfall / WEATHER_THRESHOLDS_low
      excess * 15
  let temp_risk :=
    if temperature ≤ TEMPERATURE_THRESHOLDS_cold_risk then
      (TEMPERATURE_THRESHOLDS_cold_risk - temperature) / 10 * 10
    else if temperature ≥ TEMPERATURE_THRESHOLDS_hot_risk then
      (temperature - TEMPERATURE_THRESHOLDS_hot_risk) / 10 * 15
    else 0
  min 100 (score + temp_risk)

/-- `compute_demand_risk_score` from `risk_engine.py`: effective signal is
`max(demand_index, demand_7d_avg)`, breakpoints 0.5 / 0.7 / 0.85, bands
0-10 / 10-30 / 30-60 / 60-100, top band clamped at 100. -/
def compute_demand_risk_score (demand_index demand_7d_avg : ℚ) : ℚ :=
  let effective_demand := max demand_index demand_7d_avg
  if effective_demand ≥ DEMAND_THRESHOLDS_high then
    let excess := (effective_demand - DEMAND_THRESHOLDS_high) /
      (1 - DEMAND_THRESHOLDS_high)
    min 100 (60 + excess * 40)
  else if effective_demand ≥ DEMAND_THRESHOLDS_medium then
    let excess := (effective_demand - DEMAND_THRESHOLDS_medium) /
      (DEMAND_THRESHOLDS_high - DEMAND_THRESHOLDS_medium)
    30 + excess * 30
  else if effective_demand ≥ DEMAND_THRESHOLDS_low then
    let excess := (effective_demand - DEMAND_THRESHOLDS_low) /
      (DEMAND_THRESHOLDS_medium - DEMAND_THRESHOLDS_low)
    10 + excess * 20
  else
    let excess := effective_demand / DEMAND_THRESHOLDS_low
    excess * 10

/-- `compute_combined_risk_score` from `risk_engine.py`: weighted sum of the
three component scores, clamped to [0, 100]. -/
def compute_combined_risk_score (traffic_score weather_score demand_score : ℚ) : ℚ :=
  let combined :=
    traffic_score * RISK_WEIGHTS_traffic +
    weather_score * RISK_WEIGHTS_weather +
    demand_score * RISK_WEIGHTS_demand
  min 100 (max 0 combined)

/-- `classify_risk` from `risk_engine.py`. -/
def classify_risk (risk_score : ℚ) : String :=
  if risk_score ≤ RISK_SCORE_THRESHOLDS_low then "Low"
  else if risk_score ≤ RISK_SCORE_THRESHOLDS_medium then "Medium"
  else "High"

/-! ## Spec-side piecewise maps (written from the spec text, for refinement) -/

/-- The traffic band map as the spec words it: bands keyed by the effective
signal against 0.3 / 0.6 / 0.8, each band linearly interpolating between its
endpoints, top band clamped at 100. -/
def specTrafficMap (effective : ℚ) : ℚ :=
  if effective < 3/10 then effective / (3/10) * 20
  else if effective < 3/5 then 20 + (effective - 3/10) / (3/5 - 3/10) * (50 - 20)
  else if effective < 4/5 then 50 + (effective - 3/5) / (4/5 - 3/5) * (80 - 50)
  else min 100 (80 + (effective - 4/5) / (1 - 4/5) * 20)

/-- The demand band map as the spec words it: thresholds 0.5 / 0.7 / 0.85,
bands 0-10, 10-30, 30-60, 60-100 with the top band clamped at 100. -/
def specDemandMap (effective : ℚ) : ℚ :=
  if effective < 1/2 then effective / (1/2) * 10
  else if effective < 7/10 then 10 + (effective - 1/2) / (7/10 - 1/2) * (30 - 10)
  else if effective < 17/20 then 30 + (effective - 7/10) / (17/20 - 7/10) * (60 - 30)
  else min 100 (60 + (effective - 17/20) / (1 - 17/20) * 40)

/-- The rainfall band map as the spec words it: thresholds 5 / 15 / 30, bands
0-15, 15-40, 40-70, and for effective ≥ 30 the band
`70 + min((effective-30)/50, 1) * 30` (excess ratio clamped to 1, denominator
50 rather than 1). -/
def specRainMap (effective : ℚ) : ℚ :=
  if effective < 5 then effective / 5 * 15
  else if effective < 15 then 15 + (effective - 5) / (15 - 5) * (40 - 15)
  else if effective < 30 then 40 + (effective - 15) / (30 - 15) * (70 - 40)
  else 70 + min ((effective - 30) / 50) 1 * 30

/-- The temperature penalty as the spec words it: `(10 - t)/10*10` when
`t ≤ 10`, `(t - 40)/10*15` when `t ≥ 40`, zero strictly between. -/
def specTempPenalty (t : ℚ) : ℚ :=
  if t ≤ 10 then (10 - t) / 10 * 10
  else if t ≥ 40 then (t - 40) / 10 * 15
  else 0

/-! ## Bridge lemmas: the code scorers equal the spec band maps -/

theorem traffic_eq_spec (x y : ℚ) :
    compute_traffic_risk_score x y = specTrafficMap (max x y) := by
  simp only [compute_traffic_risk_score, specTrafficMap,
    TRAFFIC_THRESHOLDS_low, TRAFFIC_THRESHOLDS_medium, TRAFFIC_THRESHOLDS_high]
  generalize max x y = e
  split_ifs <;> (try norm_num) <;> (try linarith)

theorem demand_eq_spec (x y : ℚ) :
    compute_demand_risk_score x y = specDemandMap (max x y) := by
  simp only [compute_demand_risk_score, specDemandMap,
    DEMAND_THRESHOLDS_low, DEMAND_THRESHOLDS_medium, DEMAND_THRESHOLDS_high]
  generalize max x y = e
  split_ifs <;> (try norm_num) <;> (try linarith)

set_option maxHeartbeats 1600000 in
theorem weather_eq_spec (x y t : ℚ) :
    compute_weather_risk_score x y t =
      min 100 (specRainMap (max x y) + specTempPenalty t) := by
  simp only [compute_weather_risk_score, specRainMap, specTempPenalty,
    WEATHER_THRESHOLDS_low, WEATHER_THRESHOLDS_medium, WEATHER_THRESHOLDS_high,
    TEMPERATURE_THRESHOLDS_cold_risk, TEMPERATURE_THRESHOLDS_hot_risk]
  generalize max x y = e
  split_ifs <;> (try norm_num) <;> (try linarith)

/-! ## Monotonicity and range of the band maps -/

theorem specTrafficMap_mono {a b : ℚ} (h : a ≤ b) :
    specTrafficMap a ≤ specTrafficMap b := by
  unfold specTrafficMap
  split_ifs <;>
    first
      | (apply min_le_min (le_refl 100) <;> norm_num <;> linarith)
      | (apply le_min <;> norm_num <;> linarith)
      | (norm_num <;> linarith)
      | linarith

theorem specDemandMap_mono {a b : ℚ} (h : a ≤ b) :
    specDemandMap a ≤ specDemandMap b := by
  unfold specDemandMap
  split_ifs <;>
    first
      | (apply min_le_min (le_refl 100) <;> norm_num <;> linarith)
      | (apply le_min <;> norm_num <;> linarith)
      | (norm_num <;> linarith)
      | linarith

theorem specRainMap_mono {a b : ℚ} (h : a ≤ b) :
    specRainMap a ≤ specRainMap b := by
  unfold specRainMap
  split_ifs <;>
    first
      | (norm_num <;> linarith)
      | linarith
      | (have h1 : (0:ℚ) ≤ min ((b - 30) / 50) 1 :=
          le_min (by linarith) (by norm_num)
         linarith)
      | (have h2 : min ((a - 30) / 50) 1 ≤ min ((b - 30) / 50) 1 :=
          min_le_min (by linarith) le_rfl
         linarith)

theorem specTrafficMap_range {e : ℚ} (h : 0 ≤ e) :
    0 ≤ specTrafficMap e ∧ specTrafficMap e ≤ 100 := by
  unfold specTrafficMap
  split_ifs <;> constructor <;>
    first
      | (apply le_min <;> norm_num <;> linarith)
      | (apply min_le_left)
      | (norm_num <;> linarith)
      | linarith

theorem specDemandMap_range {e : ℚ} (h : 0 ≤ e) :
    0 ≤ specDemandMap e ∧ specDemandMap e ≤ 100 := by
  unfold specDemandMap
  split_ifs <;> constructor <;>
    first
      | (apply le_min <;> norm_num <;> linarith)
      | (apply min_le_left)
      | (norm_num <;> linarith)
      | linarith

theorem specRainMap_range {e : ℚ} (h : 0 ≤ e) :
    0 ≤ specRainMap e ∧ specRainMap e ≤ 100 := by
  unfold specRainMap
  split_ifs <;> constructor <;>
    first
      | (norm_num <;> linarith)
      | linarith
      | (have h1 : (0:ℚ) ≤ min ((e - 30) / 50) 1 :=
          le_min (by linarith) (by norm_num)
         linarith)
      | (have h2 : min ((e - 30) / 50) 1 ≤ 1 := min_le_right _ _
         linarith)

theorem specTempPenalty_nonneg (t : ℚ) : 0 ≤ specTempPenalty t := by
  unfold specTempPenalty
  split_ifs <;> linarith

/-! ## Claims about the pure scoring functions -/

/-- C1: for congestion and demand inputs in [0,1], the traffic (resp. demand)
component score is the 4-segment piecewise-linear band map of the effective
signal `max(raw, rolling_avg)` — traffic thresholds 0.3/0.6/0.8 with bands
0-20, 20-50, 50-80, 80-100 (top clamped at 100); demand thresholds
0.5/0.7/0.85 with bands 0-10, 10-30, 30-60, 60-100 — and in particular
congestion 0.9 with 7-day average 0.5 scores exactly 90. -/
theorem traffic_demand_piecewise (c ca d da : ℚ)
    (hc0 : 0 ≤ c) (hc1 : c ≤ 1) (hca0 : 0 ≤ ca) (hca1 : ca ≤ 1)
    (hd0 : 0 ≤ d) (hd1 : d ≤ 1) (hda0 : 0 ≤ da) (hda1 : da ≤ 1) :
    compute_traffic_risk_score c ca = specTrafficMap (max c ca) ∧
    compute_demand_risk_score d da = specDemandMap (max d da) ∧
    compute_traffic_risk_score (9/10) (1/2) = 90 :=
  ⟨traffic_eq_spec c ca, demand_eq_spec d da, by
    norm_num [compute_traffic_risk_score, TRAFFIC_THRESHOLDS_low,
      TRAFFIC_THRESHOLDS_medium, TRAFFIC_THRESHOLDS_high, max_def, min_def]⟩

theorem traffic_demand_piecewise_witness :
    compute_traffic_risk_score (9/10) (1/2) = specTrafficMap (max (9/10) (1/2)) ∧
    compute_demand_risk_score (3/10) (1/5) = specDemandMap (max (3/10) (1/5)) ∧
    compute_traffic_risk_score (9/10) (1/2) = 90 :=
  traffic_demand_piecewise (9/10) (1/2) (3/10) (1/5)
    (by norm_num) (by norm_num) (by norm_num) (by norm_num)
    (by norm_num) (by norm_num) (by norm_num) (by norm_num)

/-- C2: for nonnegative rainfall inputs and any temperature, the weather score
is the rainfall band map (thresholds 5/15/30, bands 0-15, 15-40, 40-70, top
band `70 + min((e-30)/50, 1)*30`) of `max(rainfall, rainfall_7d_avg)` plus the
additive temperature penalty, with only the final sum clamped at 100; in
particular rainfall 40, 7-day average 10, temperature 42 scores 79. -/
theorem weather_piecewise (r ra t : ℚ) (hr : 0 ≤ r) (hra : 0 ≤ ra) :
    compute_weather_risk_score r ra t =
      min 100 (specRainMap (max r ra) + specTempPenalty t) ∧
    compute_weather_risk_score 40 10 42 = 79 :=
  ⟨weather_eq_spec r ra t, by
    norm_num [compute_weather_risk_score, WEATHER_THRESHOLDS_low,
      WEATHER_THRESHOLDS_medium, WEATHER_THRESHOLDS_high,
      TEMPERATURE_THRESHOLDS_cold_risk, TEMPERATURE_THRESHOLDS_hot_risk,
      max_def, min_def]⟩

theorem weather_piecewise_witness :
    (compute_weather_risk_score 40 10 42 =
      min 100 (specRainMap (max 40 10) + specTempPenalty 42)) ∧
    compute_weather_risk_score 40 10 42 = 79 :=
  weather_piecewise 40 10 42 (by norm_num) (by norm_num)

/-- C3: the combined risk score is the weighted sum
`a*0.40 + b*0.35 + c*0.25` clamped to [0,100], and for component scores in
[0,100] the clamp is inactive (the weights sum to 1), so the result is the
bare weighted sum. -/
theorem combined_linear (a b c : ℚ)
    (ha0 : 0 ≤ a) (ha1 : a ≤ 100) (hb0 : 0 ≤ b) (hb1 : b ≤ 100)
    (hc0 : 0 ≤ c) (hc1 : c ≤ 100) :
    compute_combined_risk_score a b c =
      min 100 (max 0 (a * (40/100) + b * (35/100) + c * (25/100))) ∧
    compute_combined_risk_score a b c =
      a * (40/100) + b * (35/100) + c * (25/100) := by
  simp only [compute_combined_risk_score, RISK_WEIGHTS_traffic,
    RISK_WEIGHTS_weather, RISK_WEIGHTS_demand]
  constructor
  · trivial
  · rw [max_eq_right (by linarith), min_eq_right (by linarith)]

theorem combined_linear_witness :
    (compute_combined_risk_score 90 79 50 =
      min 100 (max 0 (90 * (40/100) + 79 * (35/100) + 50 * (25/100)))) ∧
    compute_combined_risk_score 90 79 50 =
      90 * (40/100) + 79 * (35/100) + 50 * (25/100) :=
  combined_linear 90 79 50 (by norm_num) (by norm_num) (by norm_num)
    (by norm_num) (by norm_num) (by norm_num)

/-- C4: the classifier returns Low for scores ≤ 30, Medium for scores in
(30, 60], High above 60; boundaries are inclusive on the lower tier, so
30.0 → Low, 30.01 → Medium, 60.0 → Medium, 60.01 → High. -/
theorem classify_boundaries :
    (∀ s : ℚ, s ≤ 30 → classify_risk s = "Low") ∧
    (∀ s : ℚ, 30 < s → s ≤ 60 → classify_risk s = "Medium") ∧
    (∀ s : ℚ, 60 < s → classify_risk s = "High") ∧
    classify_risk 30 = "Low" ∧ classify_risk (3001/100) = "Medium" ∧
    classify_risk 60 = "Medium" ∧ classify_risk (6001/100) = "High" := by
  refine ⟨fun s h => ?_, fun s h1 h2 => ?_, fun s h => ?_, ?_, ?_, ?_, ?_⟩ <;>
    simp only [classify_risk, RISK_SCORE_THRESHOLDS_low,
      RISK_SCORE_THRESHOLDS_medium]
  · rw [if_pos h]
  · rw [if_neg (by linarith), if_pos h2]
  · rw [if_neg (by linarith), if_neg (by linarith)]
  · norm_num
  · norm_num
  · norm_num
  · norm_num

theorem classify_boundaries_witness :
    classify_risk 25 = "Low" ∧ classify_risk 45 = "Medium" ∧
    classify_risk 80 = "High" :=
  ⟨classify_boundaries.1 25 (by norm_num),
   classify_boundaries.2.1 45 (by norm_num) (by norm_num),
   classify_boundaries.2.2.1 80 (by norm_num)⟩

/-- C6: each component score is monotonically non-decreasing in its raw
signal, holding the rolling average (and, for weather, the temperature)
fixed. -/
theorem score_monotone (x y avg t : ℚ) (hxy : x ≤ y) :
    compute_traffic_risk_score x avg ≤ compute_traffic_risk_score y avg ∧
    compute_weather_risk_score x avg t ≤ compute_weather_risk_score y avg t ∧
    compute_demand_risk_score x avg ≤ compute_demand_risk_score y avg := by
  have hmax : max x avg ≤ max y avg := max_le_max hxy le_rfl
  refine ⟨?_, ?_, ?_⟩
  · rw [traffic_eq_spec, traffic_eq_spec]
    exact specTrafficMap_mono hmax
  · rw [weather_eq_spec, weather_eq_spec]
    exact min_le_min le_rfl (add_le_add_right (specRainMap_mono hmax) _)
  · rw [demand_eq_spec, demand_eq_spec]
    exact specDemandMap_mono hmax

theorem score_monotone_witness :
    compute_traffic_risk_score (1/10) 0 ≤ compute_traffic_risk_score (1/2) 0 ∧
    compute_weather_risk_score (1/10) 0 25 ≤
      compute_weather_risk_score (1/2) 0 25 ∧
    compute_demand_risk_score (1/10) 0 ≤ compute_demand_risk_score (1/2) 0 :=
  score_monotone (1/10) (1/2) 0 25 (by norm_num)

/-- C7: on valid inputs (congestion and demand in [0,1], rainfall ≥ 0, any
temperature) every component score lies in [0,100], and the combined score of
any three scores in [0,100] lies in [0,100]. -/
theorem scores_in_range (c ca r ra t d da a b e : ℚ)
    (hc0 : 0 ≤ c) (hc1 : c ≤ 1) (hca0 : 0 ≤ ca) (hca1 : ca ≤ 1)
    (hr : 0 ≤ r) (hra : 0 ≤ ra)
    (hd0 : 0 ≤ d) (hd1 : d ≤ 1) (hda0 : 0 ≤ da) (hda1 : da ≤ 1)
    (ha0 : 0 ≤ a) (ha1 : a ≤ 100) (hb0 : 0 ≤ b) (hb1 : b ≤ 100)
    (he0 : 0 ≤ e) (he1 : e ≤ 100) :
    (0 ≤ compute_traffic_risk_score c ca ∧
      compute_traffic_risk_score c ca ≤ 100) ∧
    (0 ≤ compute_weather_risk_score r ra t ∧
      compute_weather_risk_score r ra t ≤ 100) ∧
    (0 ≤ compute_demand_risk_score d da ∧
      compute_demand_risk_score d da ≤ 100) ∧
    (0 ≤ compute_combined_risk_score a b e ∧
      compute_combined_risk_score a b e ≤ 100) := by
  refine ⟨?_, ?_, ?_, ?_⟩
  · rw [traffic_eq_spec]
    exact specTrafficMap_range (le_trans hc0 (le_max_left _ _))
  · rw [weather_eq_spec]
    have h0 : (0:ℚ) ≤ max r ra := le_trans hr (le_max_left _ _)
    constructor
    · exact le_min (by norm_num)
        (add_nonneg (specRainMap_range h0).1 (specTempPenalty_nonneg t))
    · exact min_le_left _ _
  · rw [demand_eq_spec]
    exact specDemandMap_range (le_trans hd0 (le_max_left _ _))
  · simp only [compute_combined_risk_score]
    constructor
    · exact le_min (by norm_num) (le_max_left _ _)
    · exact min_le_left _ _

theorem scores_in_range_witness :
    (0 ≤ compute_traffic_risk_score (9/10) (1/2) ∧
      compute_traffic_risk_score (9/10) (1/2) ≤ 100) ∧
    (0 ≤ compute_weather_risk_score 40 10 42 ∧
      compute_weather_risk_score 40 10 42 ≤ 100) ∧
    (0 ≤ compute_demand_risk_score (3/10) (1/5) ∧
      compute_demand_risk_score (3/10) (1/5) ≤ 100) ∧
    (0 ≤ compute_combined_risk_score 90 79 50 ∧
      compute_combined_risk_score 90 79 50 ≤ 100) :=
  scores_in_range (9/10) (1/2) 40 10 42 (3/10) (1/5) 90 79 50
    (by norm_num) (by norm_num) (by norm_num) (by norm_num)
    (by norm_num) (by norm_num) (by norm_num) (by norm_num)
    (by norm_num) (by norm_num) (by norm_num) (by norm_num)
    (by norm_num) (by norm_num) (by norm_num) (by norm_num)

/-- C10: the classifier is total over all rationals and always returns one of
the three tier strings; scores below 0 classify as Low and scores above 100
classify as High. -/
theorem classify_total (s : ℚ) :
    (classify_risk s = "Low" ∨ classify_risk s = "Medium" ∨
      classify_risk s = "High") ∧
    (s < 0 → classify_risk s = "Low") ∧
    (100 < s → classify_risk s = "High") := by
  simp only [classify_risk, RISK_SCORE_THRESHOLDS_low,
    RISK_SCORE_THRESHOLDS_medium]
  refine ⟨?_, fun h => ?_, fun h => ?_⟩
  · split_ifs <;> simp
  · rw [if_pos (by linarith)]
  · rw [if_neg (by linarith), if_neg (by linarith)]

theorem classify_total_witness :
    classify_risk (-5) = "Low" ∧ classify_risk 200 = "High" :=
  ⟨(classify_total (-5)).2.1 (by norm_num),
   (classify_total 200).2.2 (by norm_num)⟩

/-! ## Table model

A pandas dataframe row is a record; a column that may be absent from the
input table is an `Option` field (`none` on every row models a missing
column). Accessing a required column that is absent raises `KeyError` in
pandas; here it returns `Except.error`. -/

structure FeatureRow where
  date : ℕ
  city : String
  congestion_level : Option ℚ
  congestion_level_7d_avg : Option ℚ
  rainfall_mm : Option ℚ
  rainfall_mm_7d_avg : Option ℚ
  temperature : Option ℚ
  demand_index : Option ℚ
  demand_index_7d_avg : Option ℚ
deriving DecidableEq

/-- One output row of `compute_risk_scores` (the `output_cols` selection). -/
structure RiskRow where
  date : ℕ
  city : String
  traffic_risk : ℚ
  weather_risk : ℚ
  demand_risk : ℚ
  risk_score : ℚ
  risk_classification : String
  congestion_level : ℚ
  rainfall_mm : ℚ
  temperature : ℚ
  demand_index : ℚ
deriving DecidableEq

/-- `row[name]`: a required-column access, `KeyError` when absent. -/
def requireColumn (colName : String) (v : Option ℚ) : Except String ℚ :=
  match v with
  | some q => Except.ok q
  | none => Except.error ("KeyError: " ++ colName)

/-- The traffic lambda of `compute_risk_scores`:
`row['congestion_level']` with `row.get('congestion_level_7d_avg', raw)`. -/
def trafficOfRow (row : FeatureRow) : Except String ℚ := do
  let c ← requireColumn "congestion_level" row.congestion_level
  pure (compute_traffic_risk_score c (row.congestion_level_7d_avg.getD c))

/-- The weather lambda of `compute_risk_scores`. -/
def weatherOfRow (row : FeatureRow) : Except String ℚ := do
  let r ← requireColumn "rainfall_mm" row.rainfall_mm
  let t ← requireColumn "temperature" row.temperature
  pure (compute_weather_risk_score r (row.rainfall_mm_7d_avg.getD r) t)

/-- The demand lambda of `compute_risk_scores`. -/
def demandOfRow (row : FeatureRow) : Except String ℚ := do
  let d ← requireColumn "demand_index" row.demand_index
  pure (compute_demand_risk_score d (row.demand_index_7d_avg.getD d))

/-- Selecting the raw display columns of a row for the output table. -/
def rawsOfRow (row : FeatureRow) : Except String (ℚ × ℚ × ℚ × ℚ) := do
  let c ← requireColumn "congestion_level" row.congestion_level
  let r ← requireColumn "rainfall_mm" row.rainfall_mm
  let t ← requireColumn "temperature" row.temperature
  let d ← requireColumn "demand_index" row.demand_index
  pure (c, r, t, d)

/-- Zips the per-column score lists back into output rows, computing the
combined score and classification per row (the `risk_score` and
`risk_classification` columns). -/
def buildRiskRows : List FeatureRow → List ℚ → List ℚ → List ℚ →
    List (ℚ × ℚ × ℚ × ℚ) → List RiskRow
  | row :: rows, tr :: trs, w :: ws, dm :: dms, raw :: raws =>
    let s := compute_combined_risk_score tr w dm
    { date := row.date, city := row.city,
      traffic_risk := tr, weather_risk := w, demand_risk := dm,
      risk_score := s, risk_classification := classify_risk s,
      congestion_level := raw.1, rainfall_mm := raw.2.1,
      temperature := raw.2.2.1, demand_index := raw.2.2.2 } ::
      buildRiskRows rows trs ws dms raws
  | _, _, _, _, _ => []

/-- `compute_risk_scores` from `risk_engine.py`: column-wise application of
the three scorers over the whole table (each `df.apply` is a `mapM`, so a
missing required column aborts the stage and hence the run), then the
combined score, classification, and output-column selection. The `city_tier`
lookup column is informational only and omitted. -/
def compute_risk_scores (rows : List FeatureRow) :
    Except String (List RiskRow) := do
  let traffic ← rows.mapM trafficOfRow
  let weather ← rows.mapM weatherOfRow
  let demand ← rows.mapM demandOfRow
  let raws ← rows.mapM rawsOfRow
  pure (buildRiskRows rows traffic weather demand raws)

/-- C8: when a 7-day-average field is absent the engine scores the row
exactly as if that field equalled the raw field (the effective signal
`max(raw, avg)` degrades to `raw`), and the computation succeeds rather than
failing on the missing average column; each of the three average fields
behaves this way independently. -/
theorem missing_avg_defaults_to_raw (row : FeatureRow) (c r t d : ℚ) :
    (row.congestion_level = some c → row.congestion_level_7d_avg = none →
      trafficOfRow row = Except.ok (compute_traffic_risk_score c c)) ∧
    (row.rainfall_mm = some r → row.temperature = some t →
      row.rainfall_mm_7d_avg = none →
      weatherOfRow row = Except.ok (compute_weather_risk_score r r t)) ∧
    (row.demand_index = some d → row.demand_index_7d_avg = none →
      demandOfRow row = Except.ok (compute_demand_risk_score d d)) := by
  refine ⟨fun h1 h2 => ?_, fun h1 h2 h3 => ?_, fun h1 h2 => ?_⟩
  · unfold trafficOfRow requireColumn
    rw [h1, h2]
    rfl
  · unfold weatherOfRow requireColumn
    rw [h1, h2, h3]
    rfl
  · unfold demandOfRow requireColumn
    rw [h1, h2]
    rfl

def sampleFeatureRow : FeatureRow :=
  { date := 1, city := "Delhi",
    congestion_level := some (9/10), congestion_level_7d_avg := none,
    rainfall_mm := some 40, rainfall_mm_7d_avg := none,
    temperature := some 42,
    demand_index := some (3/10), demand_index_7d_avg := none }

theorem missing_avg_defaults_to_raw_witness :
    trafficOfRow sampleFeatureRow =
      Except.ok (compute_traffic_risk_score (9/10) (9/10)) ∧
    weatherOfRow sampleFeatureRow =
      Except.ok (compute_weather_risk_score 40 40 42) ∧
    demandOfRow sampleFeatureRow =
      Except.ok (compute_demand_risk_score (3/10) (3/10)) :=
  ⟨(missing_avg_defaults_to_raw sampleFeatureRow (9/10) 40 42 (3/10)).1 rfl rfl,
   (missing_avg_defaults_to_raw sampleFeatureRow (9/10) 40 42 (3/10)).2.1
     rfl rfl rfl,
   (missing_avg_defaults_to_raw sampleFeatureRow (9/10) 40 42 (3/10)).2.2
     rfl rfl⟩

theorem mapM_head_error {α : Type} {f : FeatureRow → Except String α}
    {r : FeatureRow} (rs : List FeatureRow) {e : String}
    (h : f r = Except.error e) : (r :: rs).mapM f = Except.error e := by
  rw [List.mapM_cons, h]
  rfl

/-- C9: an input table with at least one row but one of the four required
raw columns absent makes the whole risk-score run fail with an error: no
risk table is produced, no rows are silently skipped. -/
theorem missing_required_column_fails (rows : List FeatureRow)
    (hne : rows ≠ [])
    (hmiss :
      (∀ r ∈ rows, r.congestion_level = none) ∨
      (∀ r ∈ rows, r.rainfall_mm = none) ∨
      (∀ r ∈ rows, r.temperature = none) ∨
      (∀ r ∈ rows, r.demand_index = none)) :
    ∃ e, compute_risk_scores rows = Except.error e := by
  obtain ⟨r, rs, rfl⟩ := List.exists_cons_of_ne_nil hne
  rcases hmiss with hm | hm | hm | hm
  · have h1 : trafficOfRow r = Except.error "KeyError: congestion_level" := by
      unfold trafficOfRow requireColumn
      rw [hm r (List.mem_cons_self r rs)]
      rfl
    exact ⟨_, by unfold compute_risk_scores; rw [mapM_head_error rs h1]; rfl⟩
  · have h1 : weatherOfRow r = Except.error "KeyError: rainfall_mm" := by
      unfold weatherOfRow requireColumn
      rw [hm r (List.mem_cons_self r rs)]
      rfl
    cases htr : (r :: rs).mapM trafficOfRow with
    | error e => exact ⟨e, by unfold compute_risk_scores; rw [htr]; rfl⟩
    | ok v =>
      exact ⟨_, by
        unfold compute_risk_scores; rw [htr, mapM_head_error rs h1]; rfl⟩
  · have h1 : ∃ e1, weatherOfRow r = Except.error e1 := by
      unfold weatherOfRow requireColumn
      cases hrm : r.rainfall_mm with
      | none => exact ⟨"KeyError: rainfall_mm", rfl⟩
      | some q =>
        rw [hm r (List.mem_cons_self r rs)]
        exact ⟨"KeyError: temperature", rfl⟩
    obtain ⟨e1, h1⟩ := h1
    cases htr : (r :: rs).mapM trafficOfRow with
    | error e => exact ⟨e, by unfold compute_risk_scores; rw [htr]; rfl⟩
    | ok v =>
      exact ⟨e1, by
        unfold compute_risk_scores; rw [htr, mapM_head_error rs h1]; rfl⟩
  · have h1 : demandOfRow r = Except.error "KeyError: demand_index" := by
      unfold demandOfRow requireColumn
      rw [hm r (List.mem_cons_self r rs)]
      rfl
    cases htr : (r :: rs).mapM trafficOfRow with
    | error e => exact ⟨e, by unfold compute_risk_scores; rw [htr]; rfl⟩
    | ok v =>
      cases hw : (r :: rs).mapM weatherOfRow with
      | error e => exact ⟨e, by unfold compute_risk_scores; rw [htr, hw]; rfl⟩
      | ok w =>
        exact ⟨_, by
          unfold compute_risk_scores; rw [htr, hw, mapM_head_error rs h1]; rfl⟩

def sampleMissingRow : FeatureRow :=
  { date := 1, city := "Pune",
    congestion_level := none, congestion_level_7d_avg := none,
    rainfall_mm := some 2, rainfall_mm_7d_avg := none,
    temperature := some 30,
    demand_index := some (1/2), demand_index_7d_avg := none }

theorem missing_required_column_fails_witness :
    ∃ e, compute_risk_scores [sampleMissingRow] = Except.error e :=
  missing_required_column_fails [sampleMissingRow] (by simp)
    (Or.inl (by
      intro r hr
      rw [List.mem_singleton] at hr
      rw [hr]
      rfl))

/-! ## Alert generation (`generate_alerts`, `_generate_alert_reason`) -/

/-- Round half to even, as Python does when formatting values. -/
def roundHalfEven (q : ℚ) : ℤ :=
  if q - ⌊q⌋ < 1/2 then ⌊q⌋
  else if q - ⌊q⌋ > 1/2 then ⌊q⌋ + 1
  else if ⌊q⌋ % 2 = 0 then ⌊q⌋ else ⌊q⌋ + 1

/-- Fixed-point decimal rendering with `prec` digits after the point,
modelling the f-string format specifiers `.2f` and `.1f` used by the alert
reasons. -/
def formatFixed (prec : ℕ) (x : ℚ) : String :=
  let p : ℕ := 10 ^ prec
  let n : ℤ := roundHalfEven (x * p)
  let sign := if n < 0 then "-" else ""
  let m : ℕ := n.natAbs
  let ip : ℕ := m / p
  let fp : ℕ := m % p
  if prec = 0 then sign ++ Nat.repr ip
  else
    let fs := Nat.repr fp
    let pad := String.mk (List.replicate (prec - fs.length) (Char.ofNat 48))
    sign ++ Nat.repr ip ++ "." ++ pad ++ fs

/-- `_generate_alert_reason` from `risk_engine.py`: one clause per component
score ≥ 60 (traffic, weather, demand, in that order), a generic fallback when
the list stays empty, joined with the separator. -/
def _generate_alert_reason (row : RiskRow) : String :=
  let reasons : List String :=
    (if row.traffic_risk ≥ 60 then
      ["High traffic congestion (" ++ formatFixed 2 row.congestion_level ++ ")"]
     else []) ++
    (if row.weather_risk ≥ 60 then
      ["Heavy rainfall (" ++ formatFixed 1 row.rainfall_mm ++ "mm)"]
     else []) ++
    (if row.demand_risk ≥ 60 then
      ["Demand surge (" ++ formatFixed 2 row.demand_index ++ ")"]
     else [])
  let reasons :=
    if reasons = [] then ["Multiple risk factors combined"] else reasons
  String.intercalate "; " reasons

/-- A row of the alert table: a risk row plus the appended `alert_reason`
column. -/
structure AlertRow where
  row : RiskRow
  alert_reason : String
deriving DecidableEq

/-- `df['date'].max()` over the risk table. -/
def latest_date (risk : List RiskRow) : ℕ :=
  (risk.map (fun r => r.date)).foldr max 0

/-- `generate_alerts` from `risk_engine.py`: filter to the given date
(defaulting to the latest date present), keep the rows classified High, sort
by risk score descending, and append the alert reason. -/
def generate_alerts (risk : List RiskRow) (date : Option ℕ) : List AlertRow :=
  let df : List RiskRow :=
    match date with
    | some d => risk.filter (fun r => r.date == d)
    | none => risk.filter (fun r => r.date == latest_date risk)
  let alerts := df.filter (fun r => r.risk_classification == "High")
  let alerts :=
    List.insertionSort (fun a b => b.risk_score ≤ a.risk_score) alerts
  alerts.map (fun r => { row := r, alert_reason := _generate_alert_reason r })

/-- The alert-reason policy as the spec words it: for each component whose
score reaches 60, in the fixed order traffic, weather, demand, a clause
naming the component with its raw signal (congestion to 2 decimals, rainfall
to 1 decimal, demand index to 2 decimals), joined by the separator; a single
generic fallback clause when no component reaches 60. -/
def specAlertReason (row : RiskRow) : String :=
  let clauses : List String :=
    (if row.traffic_risk ≥ 60 then
      ["High traffic congestion (" ++ formatFixed 2 row.congestion_level ++ ")"]
     else []) ++
    (if row.weather_risk ≥ 60 then
      ["Heavy rainfall (" ++ formatFixed 1 row.rainfall_mm ++ "mm)"]
     else []) ++
    (if row.demand_risk ≥ 60 then
      ["Demand surge (" ++ formatFixed 2 row.demand_index ++ ")"]
     else [])
  if clauses = [] then "Multiple risk factors combined"
  else String.intercalate "; " clauses

theorem alert_reason_eq_spec (row : RiskRow) :
    _generate_alert_reason row = specAlertReason row := by
  unfold _generate_alert_reason specAlertReason
  split_ifs <;> rfl

theorem map_row_map_mk (l : List RiskRow) (f : RiskRow → String) :
    List.map AlertRow.row
      (l.map (fun r => ({ row := r, alert_reason := f r } : AlertRow))) = l := by
  induction l with
  | nil => rfl
  | cons a l ih => simp [ih]

instance : IsTotal RiskRow (fun a b => b.risk_score ≤ a.risk_score) :=
  ⟨fun a b => le_total b.risk_score a.risk_score⟩

instance : IsTrans RiskRow (fun a b => b.risk_score ≤ a.risk_score) :=
  ⟨fun _ _ _ hab hbc => le_trans hbc hab⟩

/-- C5: called with no explicit date, the alert generator returns exactly the
rows of the maximum date present that are classified High (as a permutation,
i.e. the same multiset of rows), ordered by risk score descending, each
carrying the alert reason built by the spec policy: clauses for components
scoring ≥ 60 in the order traffic, weather, demand, with the raw signal
values, joined by the separator, and a single generic fallback clause when no
component reaches 60. -/
theorem generate_alerts_spec (risk : List RiskRow) (h : risk ≠ []) :
    ((generate_alerts risk none).map AlertRow.row).Perm
      (risk.filter (fun r =>
        r.date == latest_date risk && r.risk_classification == "High")) ∧
    (generate_alerts risk none).Pairwise
      (fun a b => b.row.risk_score ≤ a.row.risk_score) ∧
    ∀ a ∈ generate_alerts risk none,
      a.alert_reason = specAlertReason a.row := by
  refine ⟨?_, ?_, ?_⟩
  · simp only [generate_alerts]
    rw [map_row_map_mk]
    refine (List.perm_insertionSort _ _).trans ?_
    rw [List.filter_filter]
    have hpred :
        (fun r : RiskRow =>
          (r.risk_classification == "High") && (r.date == latest_date risk)) =
        (fun r : RiskRow =>
          (r.date == latest_date risk) && (r.risk_classification == "High")) := by
      funext r
      exact Bool.and_comm _ _
    rw [hpred]
  · simp only [generate_alerts]
    rw [List.pairwise_map]
    exact List.sorted_insertionSort _ _
  · intro a ha
    simp only [generate_alerts, List.mem_map] at ha
    obtain ⟨r, hr, rfl⟩ := ha
    exact alert_reason_eq_spec r

def sampleHighRow : RiskRow :=
  { date := 5, city := "Mumbai", traffic_risk := 90, weather_risk := 45,
    demand_risk := 20, risk_score := 65, risk_classification := "High",
    congestion_level := 9/10, rainfall_mm := 8, temperature := 30,
    demand_index := 2/5 }

def sampleLowRow : RiskRow :=
  { date := 5, city := "Pune", traffic_risk := 10, weather_risk := 5,
    demand_risk := 0, risk_score := 7, risk_classification := "Low",
    congestion_level := 1/10, rainfall_mm := 0, temperature := 25,
    demand_index := 1/10 }

theorem generate_alerts_spec_witness :
    ((generate_alerts [sampleHighRow, sampleLowRow] none).map
        AlertRow.row).Perm
      ([sampleHighRow, sampleLowRow].filter (fun r =>
        r.date == latest_date [sampleHighRow, sampleLowRow] &&
        r.risk_classification == "High")) ∧
    (generate_alerts [sampleHighRow, sampleLowRow] none).Pairwise
      (fun a b => b.row.risk_score ≤ a.row.risk_score) :=
  ⟨(generate_alerts_spec [sampleHighRow, sampleLowRow] (by simp)).1,
   (generate_alerts_spec [sampleHighRow, sampleLowRow] (by simp)).2.1⟩
